import Mathlib

/-!
Verification development for the causal multi-head attention core of the
`neural-networks` repository (notebook `transformer.ipynb`).

Part 1 embeds the committed `attention_forward` function exactly as it
appears in the source: four precondition asserts followed by an empty
`TODO` body and a final `assert v.shape == ...` on a variable `v` that is
never assigned, so every call that passes the asserts raises a NameError.

Part 2 models the attention algorithm itself.  The body of
`attention_forward` is a fill-in-the-blank TODO in the source, so the
algorithm is modelled from the specification (score formula, causal mask,
stable softmax, weighted aggregation, head-concatenating reshape, linear
projection), over exact real arithmetic.

Part 3 embeds the integration wrapper `custom_attention_forward`.
-/

/-- A Python runtime error as raised by the committed `attention_forward`:
tuple-unpacking failure (`ValueError`), a failed `assert` carrying an
optional message (the committed asserts are bare, so the message is
`none`), or a reference to an unbound variable (`NameError`). -/
inductive PyError where
  | valueError : PyError
  | assertionError : Option String → PyError
  | nameError : String → PyError
deriving DecidableEq, Repr

/-- Whether the error carries a message describing the failure.  A bare
Python `assert` produces `AssertionError` with no message, which is not
descriptive. -/
def PyError.descriptive : PyError → Bool
  | .assertionError (some _) => true
  | _ => false

/-- The committed `attention_forward` stub, embedded at the level of
shapes (its body performs no numeric computation).  It unpacks
`query.shape` and `key.shape` into four components each, runs the four
bare asserts in source order (`value.shape == key.shape`,
`q_seq_len <= k_seq_len`, `query.shape[0] == key.shape[0]`,
`query.shape[2:] == key.shape[2:]`), and then — the TODO body being
empty — evaluates the unbound variable `v` in the final shape assert,
raising `NameError`.  No call ever returns a value. -/
def attention_forward_stub (qshape kshape vshape : List Nat) :
    Except PyError Unit :=
  match qshape, kshape with
  | [bq, qs, nq, dq], [bk, ks, nk, dk] =>
    if vshape = [bk, ks, nk, dk] then
      if qs ≤ ks then
        if bq = bk then
          if nq = nk ∧ dq = dk then
            Except.error (PyError.nameError "v")
          else Except.error (PyError.assertionError none)
        else Except.error (PyError.assertionError none)
      else Except.error (PyError.assertionError none)
    else Except.error (PyError.assertionError none)
  | _, _ => Except.error PyError.valueError

/-- A rank-3 tensor: an explicit shape together with the entries, given as
a total function on indices (entries outside the shape are irrelevant). -/
structure Tensor3 where
  shape : List Nat
  data : Nat → Nat → Nat → ℝ

/-- Modelled from the spec: the raw attention score — the dot product over
`head_dim` of `query[b,q,h,:]` and `key[b,k,h,:]`, scaled by
`1/sqrt(head_dim)`.  The body of `attention_forward` is an empty TODO in
the source; this follows the score formula of the spec and of the
notebook's markdown. -/
noncomputable def rawScore (head_dim : Nat)
    (query key : Nat → Nat → Nat → Nat → ℝ) (b h q k : Nat) : ℝ :=
  (∑ d ∈ Finset.range head_dim, query b q h d * key b k h d) /
    Real.sqrt head_dim

/-- Modelled from the spec: the causally masked score.  Positions with
`k ≤ q` keep the raw score; future positions `k > q` are forced to the
very large negative value `-L` (the configurable masking constant left
unspecified by the source). -/
noncomputable def maskedScore (L : ℝ) (head_dim : Nat)
    (query key : Nat → Nat → Nat → Nat → ℝ) (b h q k : Nat) : ℝ :=
  if k ≤ q then rawScore head_dim query key b h q k else -L

/-- The maximum of `f 0, …, f (n-1)` (with `f 0` as the fold default, so
for `n > 0` this is the genuine row maximum). -/
noncomputable def rowMax (n : Nat) (f : Nat → ℝ) : ℝ :=
  Finset.fold max (f 0) f (Finset.range n)

/-- Modelled from the spec: numerically stable softmax of the row
`f 0, …, f (n-1)` at position `k` — the per-row maximum is subtracted
before exponentiating, then each exponential is divided by the row sum of
exponentials. -/
noncomputable def softmaxRow (n : Nat) (f : Nat → ℝ) (k : Nat) : ℝ :=
  Real.exp (f k - rowMax n f) /
    ∑ j ∈ Finset.range n, Real.exp (f j - rowMax n f)

/-- Modelled from the spec: the attention weight `weight[b,h,q,k]` — the
softmax over the key axis of the masked score row. -/
noncomputable def attnWeight (L : ℝ) (head_dim k_len : Nat)
    (query key : Nat → Nat → Nat → Nat → ℝ) (b h q k : Nat) : ℝ :=
  softmaxRow k_len (maskedScore L head_dim query key b h q) k

/-- Modelled from the spec: the pre-reshape aggregate
`output[b,q,h,d] = Σ_k weight[b,h,q,k] * value[b,k,h,d]`. -/
noncomputable def attnAggregate (L : ℝ) (head_dim k_len : Nat)
    (query key value : Nat → Nat → Nat → Nat → ℝ) (b q h d : Nat) : ℝ :=
  ∑ k ∈ Finset.range k_len,
    attnWeight L head_dim k_len query key b h q k * value b k h d

/-- Modelled from the spec: the aggregate reshaped from
`(batch, q_len, heads, head_dim)` to `(batch, q_len, heads*head_dim)` by
concatenating head outputs in head order: flat index `i` addresses head
`i / head_dim`, coordinate `i % head_dim`. -/
noncomputable def attnPreProjection (L : ℝ) (head_dim k_len : Nat)
    (query key value : Nat → Nat → Nat → Nat → ℝ) (b q i : Nat) : ℝ :=
  attnAggregate L head_dim k_len query key value b q (i / head_dim)
    (i % head_dim)

/-- Modelled from the spec: the reshaped pre-projection output tensor,
of shape `(batch, q_len, heads*head_dim)`. -/
noncomputable def attentionPreSpec (L : ℝ)
    (batch q_len k_len heads head_dim : Nat)
    (query key value : Nat → Nat → Nat → Nat → ℝ) : Tensor3 :=
  { shape := [batch, q_len, heads * head_dim]
    data := attnPreProjection L head_dim k_len query key value }

/-- Modelled from the spec: the full attention forward computation —
masked scaled-dot-product scores, stable softmax, weighted aggregation,
head-concatenating reshape, and the final linear projection `W` (a
`model_width × (heads*head_dim)` matrix), yielding a tensor of shape
`(batch, q_len, model_width)`. -/
noncomputable def attentionForwardSpec (L : ℝ)
    (batch q_len k_len heads head_dim model_width : Nat)
    (query key value : Nat → Nat → Nat → Nat → ℝ)
    (W : Nat → Nat → ℝ) : Tensor3 :=
  { shape := [batch, q_len, model_width]
    data := fun b q j =>
      ∑ i ∈ Finset.range (heads * head_dim),
        W j i * attnPreProjection L head_dim k_len query key value b q i }

theorem rowMax_succ (n : Nat) (f : Nat → ℝ) :
    rowMax (n + 1) f = max (f n) (rowMax n f) := by
  unfold rowMax
  rw [Finset.range_succ, Finset.fold_insert Finset.not_mem_range_self]

theorem le_rowMax (n : Nat) (f : Nat → ℝ) {i : Nat} (hi : i < n) :
    f i ≤ rowMax n f := by
  induction n with
  | zero => omega
  | succ m ih =>
    rw [rowMax_succ]
    rcases Nat.lt_succ_iff_lt_or_eq.mp hi with h | h
    · exact le_max_of_le_right (ih h)
    · subst h; exact le_max_left _ _

theorem softmaxRow_denom_pos (n : Nat) (f : Nat → ℝ) (hn : 0 < n) :
    0 < ∑ j ∈ Finset.range n, Real.exp (f j - rowMax n f) :=
  Finset.sum_pos (fun j _ => Real.exp_pos _)
    ⟨0, Finset.mem_range.mpr hn⟩

theorem softmaxRow_sum (n : Nat) (f : Nat → ℝ) (hn : 0 < n) :
    ∑ k ∈ Finset.range n, softmaxRow n f k = 1 := by
  unfold softmaxRow
  rw [← Finset.sum_div]
  exact div_self (ne_of_gt (softmaxRow_denom_pos n f hn))

theorem softmaxRow_one (f : Nat → ℝ) : softmaxRow 1 f 0 = 1 := by
  unfold softmaxRow
  rw [Finset.sum_range_one]
  exact div_self (ne_of_gt (Real.exp_pos _))

/-- `rotate_half` from the source: splits the last dimension (of length
`n`) into first half `x1 = x[: n/2]` and second half `x2 = x[n/2 :]` and
returns `cat(-x2, x1)`, expressed by index arithmetic on a row. -/
def rotate_half (n : Nat) (f : Nat → ℝ) (d : Nat) : ℝ :=
  if d < n - n / 2 then -f (n / 2 + d) else f (d - (n - n / 2))

/-- `apply_rotary_pos_emb` from the source, for one of the two tensors:
`q * cos + rotate_half(q) * sin`, with `cos`/`sin` of shape
`(batch, seq, head_dim)` broadcast over the head axis (the source's
`unsqueeze(1)`). -/
def applyRotary (head_dim : Nat) (q : Nat → Nat → Nat → Nat → ℝ)
    (c s : Nat → Nat → Nat → ℝ) : Nat → Nat → Nat → Nat → ℝ :=
  fun b h pos d =>
    q b h pos d * c b pos d + rotate_half head_dim (q b h pos) d * s b pos d

/-- The keyword dictionary `{"sin": sin, "cos": cos, "cache_position":
cache_position}` handed to the cache update in the source. -/
structure CacheKwargs where
  sinT : Nat → Nat → Nat → ℝ
  cosT : Nat → Nat → Nat → ℝ
  cache_position : Nat → Nat

/-- The external HuggingFace key-value cache, modelled opaquely by its
`update` method: it receives the new key and value states, the layer
index and the keyword arguments, and returns the merged key states, the
merged value states and the resulting key sequence length. -/
structure Cache where
  update : (Nat → Nat → Nat → Nat → ℝ) → (Nat → Nat → Nat → Nat → ℝ) →
    Nat → CacheKwargs →
    ((Nat → Nat → Nat → Nat → ℝ) × (Nat → Nat → Nat → Nat → ℝ) × Nat)

/-- `repeat_kv` from the source: the identity when `n_rep = 1` (the
source's early return), otherwise head `h` of the output reads head
`h / n_rep` of the input (the source's expand-and-reshape). -/
def repeat_kv (n_rep : Nat) (x : Nat → Nat → Nat → Nat → ℝ) :
    Nat → Nat → Nat → Nat → ℝ :=
  if n_rep = 1 then x else fun b h s d => x b (h / n_rep) s d

/-- The attention module object (`self` in the source): its dimension
attributes and its projection weight matrices (`q_proj`, `k_proj`,
`v_proj`, `o_proj`, bias-free as in LLaMA), plus the rotary-embedding
submodule, modelled opaquely as a function from the value states and
position ids to the `(cos, sin)` pair. -/
structure AttnModule where
  num_heads : Nat
  head_dim : Nat
  hidden_size : Nat
  layer_idx : Nat
  num_key_value_groups : Nat
  q_proj : Nat → Nat → ℝ
  k_proj : Nat → Nat → ℝ
  v_proj : Nat → Nat → ℝ
  o_proj : Nat → Nat → ℝ
  rotary_emb : (Nat → Nat → Nat → Nat → ℝ) → (Nat → Nat) →
    ((Nat → Nat → Nat → ℝ) × (Nat → Nat → Nat → ℝ))

/-- `custom_attention_forward` from the source.  `hidden_states` has
shape `(batch, q_len, hidden_size)` (the two sizes are passed
explicitly); the query/key/value linear projections are applied, the
result viewed as `(batch, seq, heads, head_dim)` and transposed to
`(batch, heads, seq, head_dim)`, rotary position embeddings applied
(taken from `position_embeddings` when provided, else computed by the
module's `rotary_emb`), the key/value states run through the cache
update when `past_key_value` is present, `repeat_kv` applied, the
tensors transposed back, and the inner attention computation invoked
with `o_proj` as output projection.  The inner `attention_forward` body
is an empty TODO in the source, so `attentionForwardSpec` (modelled from
the spec) stands in for it, with masking constant `L`.  Returns the
3-tuple `(attn_output, None, past_key_value)`. -/
noncomputable def custom_attention_forward (L : ℝ) (self : AttnModule)
    (hidden_states : Nat → Nat → Nat → ℝ) (batch q_len : Nat)
    (attention_mask : Option (Nat → Nat → Nat → Nat → ℝ))
    (position_ids : Nat → Nat)
    (past_key_value : Option Cache)
    (output_attentions : Bool) (use_cache : Bool)
    (cache_position : Nat → Nat)
    (position_embeddings :
      Option ((Nat → Nat → Nat → ℝ) × (Nat → Nat → Nat → ℝ))) :
    Tensor3 × Option (Nat → Nat → Nat → Nat → ℝ) × Option Cache :=
  let qLin := fun b s j => ∑ i ∈ Finset.range self.hidden_size,
    self.q_proj j i * hidden_states b s i
  let kLin := fun b s j => ∑ i ∈ Finset.range self.hidden_size,
    self.k_proj j i * hidden_states b s i
  let vLin := fun b s j => ∑ i ∈ Finset.range self.hidden_size,
    self.v_proj j i * hidden_states b s i
  let query_states := fun b h s d => qLin b s (h * self.head_dim + d)
  let key_states := fun b h s d => kLin b s (h * self.head_dim + d)
  let value_states := fun b h s d => vLin b s (h * self.head_dim + d)
  let cs := match position_embeddings with
    | none => self.rotary_emb value_states position_ids
    | some p => p
  let query_states := applyRotary self.head_dim query_states cs.1 cs.2
  let key_states := applyRotary self.head_dim key_states cs.1 cs.2
  let kvu := match past_key_value with
    | none => (key_states, value_states, q_len)
    | some c => c.update key_states value_states self.layer_idx
        ⟨cs.2, cs.1, cache_position⟩
  let key_states := repeat_kv self.num_key_value_groups kvu.1
  let value_states := repeat_kv self.num_key_value_groups kvu.2.1
  let k_len := kvu.2.2
  let qT := fun b s h d => query_states b h s d
  let kT := fun b s h d => key_states b h s d
  let vT := fun b s h d => value_states b h s d
  let attn_output := attentionForwardSpec L batch q_len k_len
    self.num_heads self.head_dim self.hidden_size qT kT vT self.o_proj
  (attn_output, none, past_key_value)

/-- C1: for every key position `k ≤ q` (the unmasked case of a valid
input), the raw attention score is the dot product over `head_dim` of
`query[b,q,h,:]` and `key[b,k,h,:]` multiplied by exactly
`1/sqrt(head_dim)`. -/
theorem attention_raw_score_scaled (L : ℝ) (head_dim : Nat)
    (query key : Nat → Nat → Nat → Nat → ℝ) (b h q k : Nat) (hk : k ≤ q) :
    maskedScore L head_dim query key b h q k =
      (∑ d ∈ Finset.range head_dim, query b q h d * key b k h d) *
        (1 / Real.sqrt head_dim) := by
  unfold maskedScore rawScore
  rw [if_pos hk, div_eq_mul_one_div]

/-- Witness for C1 at `head_dim = 64`, all-ones query and key,
`q = k = 0`. -/
theorem attention_raw_score_scaled_witness :
    (0 : Nat) ≤ 0 ∧
    maskedScore 1000 64 (fun _ _ _ _ => 1) (fun _ _ _ _ => 1) 0 0 0 0 =
      (∑ d ∈ Finset.range 64, (1 : ℝ) * 1) * (1 / Real.sqrt 64) :=
  ⟨le_refl 0,
    attention_raw_score_scaled 1000 64 (fun _ _ _ _ => 1) (fun _ _ _ _ => 1)
      0 0 0 0 (le_refl 0)⟩

/-- C3: each `(b,h,q,·)` row of attention weights is a softmax of the
masked score row (stable by construction: the per-row maximum is
subtracted before exponentiating), and it sums to `1` over the key axis —
exactly in real arithmetic, hence within the `1e-5` tolerance. -/
theorem attention_softmax_rows_sum_to_one (L : ℝ) (head_dim k_len : Nat)
    (query key : Nat → Nat → Nat → Nat → ℝ) (b h q : Nat)
    (hk : 0 < k_len) :
    (∑ k ∈ Finset.range k_len,
        attnWeight L head_dim k_len query key b h q k) = 1 ∧
    |(∑ k ∈ Finset.range k_len,
        attnWeight L head_dim k_len query key b h q k) - 1| ≤ 1e-5 := by
  have h : (∑ k ∈ Finset.range k_len,
      attnWeight L head_dim k_len query key b h q k) = 1 := by
    unfold attnWeight
    exact softmaxRow_sum k_len (maskedScore L head_dim query key b h q) hk
  refine ⟨h, ?_⟩
  rw [h]
  norm_num

/-- Witness for C3 at `k_len = 2`, zero query and key. -/
theorem attention_softmax_rows_sum_to_one_witness :
    (0 : Nat) < 2 ∧
    ((∑ k ∈ Finset.range 2,
        attnWeight 0 1 2 (fun _ _ _ _ => 0) (fun _ _ _ _ => 0) 0 0 0 k) = 1 ∧
     |(∑ k ∈ Finset.range 2,
        attnWeight 0 1 2 (fun _ _ _ _ => 0) (fun _ _ _ _ => 0) 0 0 0 k) - 1|
       ≤ 1e-5) :=
  ⟨by decide,
    attention_softmax_rows_sum_to_one 0 1 2 (fun _ _ _ _ => 0)
      (fun _ _ _ _ => 0) 0 0 0 (by decide)⟩

/-- C4: the reshaped pre-projection output gathers the values with the
softmax-normalized weights: entry `h*head_dim + d` of row `(b,q)` equals
`Σ_k weight[b,h,q,k] * value[b,k,h,d]` (and not an aggregate of the raw
masked scores). -/
theorem attention_aggregate_uses_weights (L : ℝ) (head_dim k_len : Nat)
    (query key value : Nat → Nat → Nat → Nat → ℝ) (b q h d : Nat)
    (hd : d < head_dim) :
    attnPreProjection L head_dim k_len query key value b q
        (h * head_dim + d) =
      ∑ k ∈ Finset.range k_len,
        attnWeight L head_dim k_len query key b h q k * value b k h d := by
  have hpos : 0 < head_dim := Nat.pos_of_ne_zero (by omega)
  have h1 : (h * head_dim + d) / head_dim = h := by
    rw [Nat.mul_comm h head_dim, Nat.mul_add_div hpos,
      Nat.div_eq_of_lt hd, Nat.add_zero]
  have h2 : (h * head_dim + d) % head_dim = d := by
    rw [Nat.mul_comm h head_dim, Nat.mul_add_mod, Nat.mod_eq_of_lt hd]
  unfold attnPreProjection
  rw [h1, h2]
  rfl

/-- Witness for C4 at `head_dim = 2`, `h = 1`, `d = 1`, zero tensors. -/
theorem attention_aggregate_uses_weights_witness :
    (1 : Nat) < 2 ∧
    attnPreProjection 0 2 1 (fun _ _ _ _ => 0) (fun _ _ _ _ => 0)
        (fun _ _ _ _ => 0) 0 0 (1 * 2 + 1) =
      ∑ k ∈ Finset.range 1,
        attnWeight 0 2 1 (fun _ _ _ _ => 0) (fun _ _ _ _ => 0) 0 1 0 k *
          (fun (_ _ _ _ : Nat) => (0 : ℝ)) 0 k 1 1 :=
  ⟨by decide,
    attention_aggregate_uses_weights 0 2 1 (fun _ _ _ _ => 0)
      (fun _ _ _ _ => 0) (fun _ _ _ _ => 0) 0 0 1 1 (by decide)⟩

/-- C5: the pre-projection result has shape
`(batch, q_len, heads*head_dim)` and the projected result has shape
`(batch, q_len, model_width)`. -/
theorem attention_shape_contract (L : ℝ)
    (batch q_len k_len heads head_dim model_width : Nat)
    (query key value : Nat → Nat → Nat → Nat → ℝ) (W : Nat → Nat → ℝ) :
    (attentionPreSpec L batch q_len k_len heads head_dim
        query key value).shape = [batch, q_len, heads * head_dim] ∧
    (attentionForwardSpec L batch q_len k_len heads head_dim model_width
        query key value W).shape = [batch, q_len, model_width] :=
  ⟨rfl, rfl⟩

/-- C7: the attention computation is a pure function of the query, key,
value and projection inputs — two invocations on identical inputs return
identical outputs, with no hidden randomness or cross-invocation
state. -/
theorem attention_deterministic (L : ℝ)
    (batch q_len k_len heads head_dim model_width : Nat)
    (q₁ q₂ k₁ k₂ v₁ v₂ : Nat → Nat → Nat → Nat → ℝ)
    (W₁ W₂ : Nat → Nat → ℝ)
    (hq : q₁ = q₂) (hk : k₁ = k₂) (hv : v₁ = v₂) (hW : W₁ = W₂) :
    attentionForwardSpec L batch q_len k_len heads head_dim model_width
        q₁ k₁ v₁ W₁ =
      attentionForwardSpec L batch q_len k_len heads head_dim model_width
        q₂ k₂ v₂ W₂ := by
  rw [hq, hk, hv, hW]

/-- Witness for C7 on concrete zero inputs. -/
theorem attention_deterministic_witness :
    (fun (_ _ _ _ : Nat) => (0 : ℝ)) = (fun (_ _ _ _ : Nat) => (0 : ℝ)) ∧
    attentionForwardSpec 0 1 1 1 1 1 1 (fun _ _ _ _ => 0)
        (fun _ _ _ _ => 0) (fun _ _ _ _ => 0) (fun _ _ => 0) =
      attentionForwardSpec 0 1 1 1 1 1 1 (fun _ _ _ _ => 0)
        (fun _ _ _ _ => 0) (fun _ _ _ _ => 0) (fun _ _ => 0) :=
  ⟨rfl,
    attention_deterministic 0 1 1 1 1 1 1 (fun _ _ _ _ => 0)
      (fun _ _ _ _ => 0) (fun _ _ _ _ => 0) (fun _ _ _ _ => 0)
      (fun _ _ _ _ => 0) (fun _ _ _ _ => 0) (fun _ _ => 0) (fun _ _ => 0)
      rfl rfl rfl rfl⟩

/-- C8: in the degenerate single-token case `q_len = k_len = 1` the
unique attention weight is `1` and the projected output row equals the
projection applied to `value[:,0,:,:]` reshaped to
`(batch, 1, heads*head_dim)`. -/
theorem attention_single_token (L : ℝ)
    (batch heads head_dim model_width : Nat)
    (query key value : Nat → Nat → Nat → Nat → ℝ) (W : Nat → Nat → ℝ)
    (b h j : Nat) :
    attnWeight L head_dim 1 query key b h 0 0 = 1 ∧
    (attentionForwardSpec L batch 1 1 heads head_dim model_width
        query key value W).data b 0 j =
      ∑ i ∈ Finset.range (heads * head_dim),
        W j i * value b 0 (i / head_dim) (i % head_dim) := by
  constructor
  · unfold attnWeight
    exact softmaxRow_one _
  · show (∑ i ∈ Finset.range (heads * head_dim),
        W j i * attnPreProjection L head_dim 1 query key value b 0 i) = _
    refine Finset.sum_congr rfl (fun i _ => ?_)
    congr 1
    unfold attnPreProjection attnAggregate
    rw [Finset.sum_range_one]
    unfold attnWeight
    rw [softmaxRow_one, one_mul]

/-- C2: causality.  For `k > q` the score is forced to the very large
negative value `-L` before the softmax, and the resulting weight —
strictly positive in exact real arithmetic, so never `0` exactly — is
bounded by `exp (-(L + score[b,h,q,q]))`; whenever the masking constant
`L` is effectively minus-infinite relative to a tolerance `ε` (machine
epsilon), i.e. `exp (-(L + score[b,h,q,q])) ≤ ε`, the weight is below
`ε`. -/
theorem attention_causal_weight_vanishes (L ε : ℝ) (head_dim k_len : Nat)
    (query key : Nat → Nat → Nat → Nat → ℝ) (b h q k : Nat)
    (hq : q < k_len) (hqk : q < k)
    (hL : Real.exp (-(L + rawScore head_dim query key b h q q)) ≤ ε) :
    maskedScore L head_dim query key b h q k = -L ∧
    0 < attnWeight L head_dim k_len query key b h q k ∧
    attnWeight L head_dim k_len query key b h q k ≤ ε := by
  have hn : 0 < k_len := Nat.lt_of_le_of_lt (Nat.zero_le q) hq
  have hmask : maskedScore L head_dim query key b h q k = -L := by
    unfold maskedScore
    rw [if_neg (by omega)]
  have hfq : maskedScore L head_dim query key b h q q =
      rawScore head_dim query key b h q q := by
    unfold maskedScore
    rw [if_pos (le_refl q)]
  refine ⟨hmask, ?_, ?_⟩
  · unfold attnWeight softmaxRow
    exact div_pos (Real.exp_pos _)
      (softmaxRow_denom_pos k_len (maskedScore L head_dim query key b h q) hn)
  · unfold attnWeight softmaxRow
    have hterm :
        Real.exp (maskedScore L head_dim query key b h q q -
            rowMax k_len (maskedScore L head_dim query key b h q)) ≤
          ∑ j ∈ Finset.range k_len,
            Real.exp (maskedScore L head_dim query key b h q j -
              rowMax k_len (maskedScore L head_dim query key b h q)) :=
      Finset.single_le_sum
        (f := fun j => Real.exp (maskedScore L head_dim query key b h q j -
          rowMax k_len (maskedScore L head_dim query key b h q)))
        (fun j _ => le_of_lt (Real.exp_pos _)) (Finset.mem_range.mpr hq)
    have hstep :
        Real.exp (maskedScore L head_dim query key b h q k -
            rowMax k_len (maskedScore L head_dim query key b h q)) /
          (∑ j ∈ Finset.range k_len,
            Real.exp (maskedScore L head_dim query key b h q j -
              rowMax k_len (maskedScore L head_dim query key b h q))) ≤
        Real.exp (maskedScore L head_dim query key b h q k -
            rowMax k_len (maskedScore L head_dim query key b h q)) /
          Real.exp (maskedScore L head_dim query key b h q q -
            rowMax k_len (maskedScore L head_dim query key b h q)) := by
      gcongr
    refine le_trans hstep ?_
    rw [← Real.exp_sub]
    rw [hmask, hfq]
    have harg : -L - rowMax k_len (maskedScore L head_dim query key b h q) -
        (rawScore head_dim query key b h q q -
          rowMax k_len (maskedScore L head_dim query key b h q)) =
        -(L + rawScore head_dim query key b h q q) := by ring
    rw [harg]
    exact hL

/-- Witness for C2 at `k_len = 2`, `q = 0`, `k = 1`, zero query and key,
masking constant `L = 0` and tolerance `ε = 1`. -/
theorem attention_causal_weight_vanishes_witness :
    (0 : Nat) < 2 ∧ (0 : Nat) < 1 ∧
    Real.exp (-((0 : ℝ) +
      rawScore 1 (fun _ _ _ _ => 0) (fun _ _ _ _ => 0) 0 0 0 0)) ≤ 1 ∧
    (maskedScore 0 1 (fun _ _ _ _ => 0) (fun _ _ _ _ => 0) 0 0 0 1 = -0 ∧
     0 < attnWeight 0 1 2 (fun _ _ _ _ => 0) (fun _ _ _ _ => 0) 0 0 0 1 ∧
     attnWeight 0 1 2 (fun _ _ _ _ => 0) (fun _ _ _ _ => 0) 0 0 0 1 ≤ 1) :=
  ⟨by decide, by decide,
    by simp [rawScore],
    attention_causal_weight_vanishes 0 1 1 2 (fun _ _ _ _ => 0)
      (fun _ _ _ _ => 0) 0 0 0 1 (by decide) (by decide)
      (by simp [rawScore])⟩

/-- C6 counterexample: at query shape `[1,2,1,2]`, key shape `[1,2,1,2]`
and the mismatching value shape `[1,1,1,2]`, the committed
`attention_forward` aborts with a bare `AssertionError` that carries no
message, so the error is not a descriptive one identifying the
mismatched dimension. -/
theorem attention_assert_not_descriptive_cex :
    attention_forward_stub [1, 2, 1, 2] [1, 2, 1, 2] [1, 1, 1, 2] =
        Except.error (PyError.assertionError none) ∧
    PyError.descriptive (PyError.assertionError none) = false :=
  ⟨rfl, rfl⟩

/-- C6 amended: for every rank-4 query/key shape and any value shape
violating one of the four preconditions, the committed
`attention_forward` aborts immediately — before any attention
computation, its body being empty — but with a message-less
`AssertionError` from a bare `assert`, not with a descriptive error
identifying the mismatched dimension. -/
theorem attention_assert_aborts_bare (bq qs nq dq bk ks nk dk : Nat)
    (vshape : List Nat)
    (hviol : vshape ≠ [bk, ks, nk, dk] ∨ ¬ qs ≤ ks ∨ bq ≠ bk ∨
      ¬ (nq = nk ∧ dq = dk)) :
    attention_forward_stub [bq, qs, nq, dq] [bk, ks, nk, dk] vshape =
      Except.error (PyError.assertionError none) := by
  simp only [attention_forward_stub]
  split_ifs with h1 h2 h3 h4
  · tauto
  all_goals rfl

/-- Witness for the amended C6: query shape `[1,2,1,2]` against key and
value shapes `[1,1,1,2]` violates `q_seq_len <= k_seq_len`. -/
theorem attention_assert_aborts_bare_witness :
    (([1, 1, 1, 2] : List Nat) ≠ [1, 1, 1, 2] ∨ ¬ (2 : Nat) ≤ 1 ∨
      (1 : Nat) ≠ 1 ∨ ¬ ((1 : Nat) = 1 ∧ (2 : Nat) = 2)) ∧
    attention_forward_stub [1, 2, 1, 2] [1, 1, 1, 2] [1, 1, 1, 2] =
      Except.error (PyError.assertionError none) :=
  ⟨by decide,
    attention_assert_aborts_bare 1 2 1 2 1 1 1 2 [1, 1, 1, 2] (by decide)⟩

/-- C9: for every input that passes the four precondition asserts, the
committed `attention_forward` never returns a value — its TODO body is
empty, `v` is never assigned, and evaluating the final shape assert
raises a `NameError` for the unbound name `v`. -/
theorem attention_stub_never_returns (bq qs nq dq bk ks nk dk : Nat)
    (vshape : List Nat)
    (hv : vshape = [bk, ks, nk, dk]) (hqs : qs ≤ ks) (hb : bq = bk)
    (hn : nq = nk) (hd : dq = dk) :
    attention_forward_stub [bq, qs, nq, dq] [bk, ks, nk, dk] vshape =
      Except.error (PyError.nameError "v") := by
  simp only [attention_forward_stub]
  rw [if_pos hv, if_pos hqs, if_pos hb, if_pos ⟨hn, hd⟩]

/-- Witness for C9: equal rank-4 shapes `[1,3,2,4]` pass every assert and
the call still ends in the `NameError` on `v`. -/
theorem attention_stub_never_returns_witness :
    (([1, 3, 2, 4] : List Nat) = [1, 3, 2, 4] ∧ (3 : Nat) ≤ 3 ∧
      (1 : Nat) = 1 ∧ (2 : Nat) = 2 ∧ (4 : Nat) = 4) ∧
    attention_forward_stub [1, 3, 2, 4] [1, 3, 2, 4] [1, 3, 2, 4] =
      Except.error (PyError.nameError "v") :=
  ⟨by decide,
    attention_stub_never_returns 1 3 2 4 1 3 2 4 [1, 3, 2, 4] rfl
      (by decide) rfl rfl rfl⟩

/-- C10 amended: `custom_attention_forward` never reads
`attention_mask` or `output_attentions` (the result is unchanged when
either varies, for any cache), and when no cache is supplied
(`past_key_value = None`) it also ignores `cache_position`; the returned
3-tuple's second component is always `None`, so attention weights are
never returned even when `output_attentions` is true.  (When a cache is
supplied, `cache_position` is forwarded to the cache update and can
affect the output — see the counterexample.) -/
theorem custom_attention_ignores_mask_and_attentions (L : ℝ)
    (self : AttnModule) (hidden_states : Nat → Nat → Nat → ℝ)
    (batch q_len : Nat)
    (m₁ m₂ m : Option (Nat → Nat → Nat → Nat → ℝ)) (pids : Nat → Nat)
    (pkv : Option Cache) (oa₁ oa₂ oa uc : Bool) (cp cp₁ cp₂ : Nat → Nat)
    (pe : Option ((Nat → Nat → Nat → ℝ) × (Nat → Nat → Nat → ℝ))) :
    custom_attention_forward L self hidden_states batch q_len m₁ pids
        pkv oa₁ uc cp pe =
      custom_attention_forward L self hidden_states batch q_len m₂ pids
        pkv oa₂ uc cp pe ∧
    custom_attention_forward L self hidden_states batch q_len m pids
        none oa uc cp₁ pe =
      custom_attention_forward L self hidden_states batch q_len m pids
        none oa uc cp₂ pe ∧
    (custom_attention_forward L self hidden_states batch q_len m pids
        pkv oa uc cp pe).2.1 = none :=
  ⟨rfl, rfl, rfl⟩

/-- A 1×1 identity projection matrix for the concrete wrapper tests. -/
noncomputable def idProj : Nat → Nat → ℝ := fun _ _ => 1

/-- A minimal concrete attention module: one head of dimension one over a
hidden size of one, identity projections, and a rotary submodule
returning `cos = 1`, `sin = 0`. -/
noncomputable def testModule : AttnModule :=
  { num_heads := 1
    head_dim := 1
    hidden_size := 1
    layer_idx := 0
    num_key_value_groups := 1
    q_proj := idProj
    k_proj := idProj
    v_proj := idProj
    o_proj := idProj
    rotary_emb := fun _ _ => (fun _ _ _ => 1, fun _ _ _ => 0) }

/-- A concrete cache whose update stores the first entry of
`cache_position` into every value-state coordinate and reports a key
length of one — it makes the dependence of the attention output on
`cache_position` observable. -/
noncomputable def positionCache : Cache :=
  ⟨fun k _ _ kw => (k, fun _ _ _ _ => (kw.cache_position 0 : ℝ), 1)⟩

/-- All-ones hidden states for the concrete wrapper tests. -/
noncomputable def testHidden : Nat → Nat → Nat → ℝ := fun _ _ _ => 1

/-- Identity-position ids for the concrete wrapper tests. -/
def testPositionIds : Nat → Nat := fun _ => 0

/-- Precomputed position embeddings `cos = 1`, `sin = 0` for the
concrete wrapper tests. -/
noncomputable def testPosEmb :
    Option ((Nat → Nat → Nat → ℝ) × (Nat → Nat → Nat → ℝ)) :=
  some (fun _ _ _ => 1, fun _ _ _ => 0)

/-- C10 counterexample: two calls to `custom_attention_forward` that are
identical except for `cache_position` (first entry `1` versus `2`), with
a cache supplied, produce different attention outputs (`1` versus `2` at
entry `(0,0,0)`), so the wrapper does not ignore `cache_position` when a
cache is present: it forwards it to the cache update, which feeds the
attention computation. -/
theorem custom_attention_reads_cache_position_cex :
    (custom_attention_forward 0 testModule testHidden 1 1 none
        testPositionIds (some positionCache) false false (fun _ => 1)
        testPosEmb).1.data 0 0 0 = 1 ∧
    (custom_attention_forward 0 testModule testHidden 1 1 none
        testPositionIds (some positionCache) false false (fun _ => 2)
        testPosEmb).1.data 0 0 0 = 2 ∧
    (1 : ℝ) ≠ 2 := by
  refine ⟨?_, ?_, by norm_num⟩ <;>
    simp [custom_attention_forward, attentionForwardSpec,
      attnPreProjection, attnAggregate, attnWeight, softmaxRow_one,
      repeat_kv, testModule, idProj, positionCache, testHidden,
      testPosEmb, applyRotary, rotate_half, Finset.sum_range_one]
